import Mathlib

set_option autoImplicit false

namespace Medialab

/-!
Shallow embedding of the session and authentication core of the
Eklista/medialab-platform frontend:

* `src/frontend/src/shared/api/apiClient.ts` — the refresh/validation
  coordinator (axios interceptors, single-flight 401 handling);
* `src/frontend/src/shared/services/authService.ts` — login / 2FA /
  validate-session service and the localStorage helpers;
* `src/frontend/src/shared/context/AuthContext.tsx` — the authentication
  state machine;
* `src/frontend/src/modules/auth/hooks/useTwoFactor.ts` — the 2FA
  countdown timer.

The browser event loop is single threaded: every handler runs atomically
between suspension points (awaits).  Stateful code is embedded as explicit
state passing; each event below corresponds to one synchronous handler run.
-/

/-- The persistent client store (browser `localStorage`) restricted to the
three keys the authentication core owns: `session_id`, `user`,
`temp_session_id`.  `localStorage.getItem` yields `null` or a string, so
each key is an `Option String`. -/
structure Store where
  session_id : Option String
  user : Option String
  temp_session_id : Option String
deriving Repr, DecidableEq

/-- JavaScript truthiness of a `string | null` value: `null` and the empty
string are falsy, every other string is truthy. -/
def strTruthy : Option String → Bool
  | some s => s ≠ ""
  | none => false

/-- `handleAuthError` store effect (apiClient.ts lines 133-143): removes
`session_id`, `user` and `temp_session_id`.  The `window.location`
redirect is a presentation-layer effect and is not modelled. -/
def Store.clearAuth (_st : Store) : Store :=
  { session_id := none, user := none, temp_session_id := none }

/-- An outbound HTTP request as the interceptors see it: an identity for
its promise, and whether its config carries the `skip-auth` header
(truthy when present, cf. `mergeConfig` / `validateSession`). -/
structure Req where
  id : Nat
  skipAuth : Bool
deriving Repr, DecidableEq

/-- The mutable state of the `ApiClient` singleton together with the
per-request `_retry` marks and the store it reads:
`isRefreshing` and `refreshSubscribers` are the fields declared at
apiClient.ts lines 9-10; `retried` records which request objects have
`_retry = true` (line 82); `validating` is the in-flight
`validateSession` call, holding the original request and the session id
that was read from the store and passed to the validator. -/
structure CoordState where
  isRefreshing : Bool
  refreshSubscribers : List Req
  retried : List Nat
  validating : Option (Req × String)
  store : Store
deriving Repr, DecidableEq

/-- Observable effects emitted by one handler run:
`validateCall sid` — the GET `/auth/session/{sid}/validate` request of
`validateSession` is issued; `replay r auth` — `this.instance(r)` is
re-issued with the given `Authorization` header; `reject id` — the
promise of request `id` is rejected; `clearStore` — `handleAuthError`
cleared the three store keys. -/
inductive Obs where
  | validateCall (sessionId : String)
  | replay (r : Req) (auth : Option String)
  | reject (id : Nat)
  | clearStore
deriving Repr, DecidableEq

/-- The request interceptor (apiClient.ts lines 26-46) applied to the
`Authorization` header at (re)issue time: if the store holds a truthy
`session_id` and the request does not carry the `skip-auth` header, the
header is overwritten with the bearer credential; otherwise any
previously set header is kept. -/
def attachAuth (st : Store) (r : Req) (existing : Option String) : Option String :=
  match st.session_id with
  | some sid => if sid ≠ "" ∧ r.skipAuth = false then some ("Bearer " ++ sid) else existing
  | none => existing

/-- Events of the coordinator: `fail401 r` — the response interceptor
runs for a 401 response to request `r` (apiClient.ts lines 59-112);
`validationDone valid` — the awaited `validateSession` call settles with
the boolean `valid` (line 90), resuming the suspended handler. -/
inductive CEvent where
  | fail401 (r : Req)
  | validationDone (valid : Bool)
deriving Repr, DecidableEq

/-- State reset performed when a 401 cycle ends (the `finally` block,
apiClient.ts lines 104-107): the in-flight flag is cleared and the queue
of subscribers is dropped; any completed validation is done. -/
def cycleEnd (s : CoordState) : CoordState :=
  { s with isRefreshing := false, refreshSubscribers := [], validating := none }

/-- One atomic handler run of the response interceptor, translated from
apiClient.ts lines 59-112.  A 401 on an already retried request falls
through to the generic rejection (line 111).  Otherwise, if a refresh is
in flight the continuation is enqueued (lines 70-80) — note that the
source consults only `error.response.status` and `_retry`, never the
`skip-auth` header.  Otherwise the handler marks the request retried,
sets `isRefreshing`, and reads the stored session id: if truthy it
issues the validation call and suspends (lines 82-94); if not, it clears
the store, rejects the request, and the `finally` block resets the flag
and drops the queue (lines 97-107).  `validationDone` resumes the
suspended handler: on `valid` the queue is drained in FIFO order — each
subscriber sets `Authorization` to the validated bearer and re-issues its
request through the request interceptor — and the original request is
re-issued (lines 91-93, 128-131); on invalid the store is cleared and
only the original request is rejected, the `finally` block discarding the
queued subscribers without settling them (lines 97-107). -/
def stepC (s : CoordState) (e : CEvent) : CoordState × List Obs :=
  match e with
  | .fail401 r =>
      if r.id ∈ s.retried then
        (s, [Obs.reject r.id])
      else if s.isRefreshing then
        ({ s with refreshSubscribers := s.refreshSubscribers ++ [r] }, [])
      else
        let s1 := { s with retried := r.id :: s.retried, isRefreshing := true }
        if strTruthy s.store.session_id then
          let sid := (s.store.session_id).getD ""
          ({ s1 with validating := some (r, sid) }, [Obs.validateCall sid])
        else
          ({ cycleEnd s1 with store := s1.store.clearAuth }, [Obs.clearStore, Obs.reject r.id])
  | .validationDone valid =>
      match s.validating with
      | none => (s, [])
      | some (orig, sid) =>
          if valid then
            let drained := s.refreshSubscribers.map
              (fun q => Obs.replay q (attachAuth s.store q (some ("Bearer " ++ sid))))
            (cycleEnd s, drained ++ [Obs.replay orig (attachAuth s.store orig none)])
          else
            ({ cycleEnd s with store := s.store.clearAuth }, [Obs.clearStore, Obs.reject orig.id])

/-- Run a sequence of coordinator events, concatenating the emitted
observable effects in order. -/
def runC (s : CoordState) : List CEvent → CoordState × List Obs
  | [] => (s, [])
  | e :: rest =>
      let p := stepC s e
      let q := runC p.1 rest
      (q.1, p.2 ++ q.2)

/-- The coordinator state at process start: no refresh in flight, empty
queue, no request retried, reading the given store. -/
def initCoord (st : Store) : CoordState :=
  { isRefreshing := false, refreshSubscribers := [], retried := [],
    validating := none, store := st }

/-- Whether an observable is the issue of a session-validation call. -/
def isValidateCall : Obs → Bool
  | .validateCall _ => true
  | _ => false

/-- Whether an observable settles (resolves or rejects) some request:
a replay resolves the waiting promise with the re-issued call, a
rejection settles it with an error. -/
def isSettle : Obs → Bool
  | .replay _ _ => true
  | .reject _ => true
  | _ => false

/-- Whether an observable settles the request with identity `i`. -/
def settlesReq (i : Nat) : Obs → Bool
  | .replay r _ => r.id == i
  | .reject j => j == i
  | _ => false

/-- Sanity check of the model on Scenario D of the spec: one 401, a
second concurrent 401, validator confirms the session; the queue drains
first (FIFO), then the original request replays, all with the validated
bearer. -/
example :
    (runC (initCoord (Store.mk (some "S1") none none))
      [CEvent.fail401 (Req.mk 0 false), CEvent.fail401 (Req.mk 1 false),
       CEvent.validationDone true]).2 =
    [Obs.validateCall "S1", Obs.replay (Req.mk 1 false) (some "Bearer S1"),
     Obs.replay (Req.mk 0 false) (some "Bearer S1")] := by decide

/-- Running events appends states and traces compositionally. -/
theorem runC_append (s : CoordState) (es1 es2 : List CEvent) :
    runC s (es1 ++ es2) =
      ((runC (runC s es1).1 es2).1, (runC s es1).2 ++ (runC (runC s es1).1 es2).2) := by
  induction es1 generalizing s with
  | nil => simp [runC]
  | cons e es ih => simp [runC, ih (stepC s e).1, List.append_assoc]

/-- A 401 handler run while a refresh is in flight, for a request not yet
retried, only appends the continuation to the subscriber queue: nothing
is emitted, no second validation call starts, and the request is neither
resolved nor rejected (apiClient.ts lines 70-80). -/
theorem stepC_enqueue (s : CoordState) (r : Req) (hRef : s.isRefreshing = true)
    (hr : r.id ∉ s.retried) :
    stepC s (CEvent.fail401 r) =
      ({ s with refreshSubscribers := s.refreshSubscribers ++ [r] }, []) := by
  simp [stepC, hr, hRef]

/-- While a refresh is in flight, a whole burst of fresh 401s only grows
the queue, in arrival order, and emits nothing. -/
theorem runC_enqueue_phase (rs : List Req) :
    ∀ s : CoordState, s.isRefreshing = true → (∀ r ∈ rs, r.id ∉ s.retried) →
    runC s (rs.map CEvent.fail401) =
      ({ s with refreshSubscribers := s.refreshSubscribers ++ rs }, []) := by
  induction rs with
  | nil => intro s _ _; simp [runC]
  | cons r rs ih =>
      intro s h hm
      have hr : r.id ∉ s.retried := hm r (List.mem_cons_self r rs)
      have hrec := ih { s with refreshSubscribers := s.refreshSubscribers ++ [r] } h
        (fun x hx => hm x (List.mem_cons_of_mem r hx))
      simp [runC, stepC_enqueue s r h hr, hrec, List.append_assoc]

/-- The opening of a revalidation cycle: from a quiescent coordinator
whose store holds a truthy session id, the first fresh 401 marks its
request retried, raises `isRefreshing`, and issues the one validation
call; every further fresh 401 (distinct request object) is enqueued in
arrival order with no further emission. -/
theorem runC_cycle_start (st : Store) (sid : String) (hsid : st.session_id = some sid)
    (hne : sid ≠ "") (r : Req) (rs : List Req) (hids : ∀ x ∈ rs, x.id ≠ r.id) :
    runC (initCoord st) ((r :: rs).map CEvent.fail401) =
      (CoordState.mk true rs [r.id] (some (r, sid)) st, [Obs.validateCall sid]) := by
  have hstep : stepC (initCoord st) (CEvent.fail401 r) =
      (CoordState.mk true [] [r.id] (some (r, sid)) st, [Obs.validateCall sid]) := by
    simp [stepC, initCoord, strTruthy, hsid, hne]
  have hrec := runC_enqueue_phase rs (CoordState.mk true [] [r.id] (some (r, sid)) st) rfl
    (by intro x hx; simp [hids x hx])
  simp [runC, hstep, hrec]

/-- The request interceptor leaves a bearer header equal to the stored
session credential unchanged: if the request skips auth the existing
header is kept, otherwise it is overwritten with the same value. -/
theorem attachAuth_bearer (st : Store) (sid : String) (hsid : st.session_id = some sid)
    (q : Req) : attachAuth st q (some ("Bearer " ++ sid)) = some ("Bearer " ++ sid) := by
  unfold attachAuth
  rw [hsid]
  show (if sid ≠ "" ∧ q.skipAuth = false then some ("Bearer " ++ sid)
    else some ("Bearer " ++ sid)) = some ("Bearer " ++ sid)
  split <;> rfl

/-- C1 (confirmed): for any burst of concurrent requests that each
receive a 401 while no validation is in flight (the store holding a
truthy session credential), exactly one session-validation call is
issued across the whole cycle — the first handler sets `isRefreshing`
before its suspension point and every later 401 is enqueued — and no
request is resolved or rejected before the validation call completes:
the 401 phase emits no settling observable, whatever the validation
outcome `b`. -/
theorem single_flight_validation (st : Store) (sid : String)
    (hsid : st.session_id = some sid) (hne : sid ≠ "")
    (r : Req) (rs : List Req) (hids : ∀ x ∈ rs, x.id ≠ r.id) (b : Bool) :
    (((runC (initCoord st) ((r :: rs).map CEvent.fail401 ++ [CEvent.validationDone b])).2.filter
        isValidateCall).length = 1) ∧
    (∀ o ∈ (runC (initCoord st) ((r :: rs).map CEvent.fail401)).2, isSettle o = false) := by
  have hphase := runC_cycle_start st sid hsid hne r rs hids
  constructor
  · rw [runC_append, hphase]
    cases b <;>
      simp [runC, stepC, isValidateCall, List.filter_eq_nil_iff, attachAuth_bearer st sid hsid]
  · rw [hphase]
    intro o ho
    simp only [List.mem_singleton] at ho
    simp [ho, isSettle]

/-- Witness for C1: two concurrent 401s with stored session `S1`, the
validator confirming the session. -/
theorem single_flight_validation_witness :
    (((runC (initCoord (Store.mk (some "S1") none none))
        ((Req.mk 0 false :: [Req.mk 1 false]).map CEvent.fail401 ++
          [CEvent.validationDone true])).2.filter isValidateCall).length = 1) ∧
    (∀ o ∈ (runC (initCoord (Store.mk (some "S1") none none))
        ((Req.mk 0 false :: [Req.mk 1 false]).map CEvent.fail401)).2, isSettle o = false) :=
  single_flight_validation (Store.mk (some "S1") none none) "S1" rfl (by decide)
    (Req.mk 0 false) [Req.mk 1 false] (by decide) true

/-- C4 (confirmed): when the validator reports the session valid, the
whole cycle trace is the single validation call followed by the replays
of the queued continuations in their enqueue (FIFO) order, each carrying
the bearer credential of the very session id the validator confirmed,
and finally the replay of the original request. -/
theorem queue_replay_fifo (st : Store) (sid : String)
    (hsid : st.session_id = some sid) (hne : sid ≠ "")
    (r : Req) (rs : List Req) (hids : ∀ x ∈ rs, x.id ≠ r.id) :
    (runC (initCoord st) ((r :: rs).map CEvent.fail401 ++ [CEvent.validationDone true])).2 =
      Obs.validateCall sid ::
        (rs.map (fun q => Obs.replay q (some ("Bearer " ++ sid)))
          ++ [Obs.replay r (attachAuth st r none)]) := by
  rw [runC_append, runC_cycle_start st sid hsid hne r rs hids]
  simp [runC, stepC, attachAuth_bearer st sid hsid]

/-- Witness for C4: requests 0 and 1, stored session `S1`. -/
theorem queue_replay_fifo_witness :
    (runC (initCoord (Store.mk (some "S1") none none))
        ((Req.mk 0 false :: [Req.mk 1 false]).map CEvent.fail401 ++
          [CEvent.validationDone true])).2 =
      Obs.validateCall "S1" ::
        (([Req.mk 1 false]).map (fun q => Obs.replay q (some ("Bearer " ++ "S1")))
          ++ [Obs.replay (Req.mk 0 false)
                (attachAuth (Store.mk (some "S1") none none) (Req.mk 0 false) none)]) :=
  queue_replay_fifo (Store.mk (some "S1") none none) "S1" rfl (by decide)
    (Req.mk 0 false) [Req.mk 1 false] (by decide)

/-- C2 counterexample: requests 0 and 1 each receive a 401; request 1 is
enqueued while the validation for request 0 is in flight; the validator
then reports the session invalid.  The code clears the store and rejects
the original request, but the queued continuation of request 1 is
discarded without ever being settled: no observable of the whole cycle
resolves or rejects request 1, refuting the claim that every queued
continuation fails with an Unauthenticated error. -/
theorem failed_revalidation_unsettled_queue_cex :
    ((runC (initCoord (Store.mk (some "S1") (some "u") none))
        [CEvent.fail401 (Req.mk 0 false), CEvent.fail401 (Req.mk 1 false)]).1.refreshSubscribers
      = [Req.mk 1 false]) ∧
    (∀ o ∈ (runC (initCoord (Store.mk (some "S1") (some "u") none))
        [CEvent.fail401 (Req.mk 0 false), CEvent.fail401 (Req.mk 1 false),
         CEvent.validationDone false]).2, settlesReq 1 o = false) := by
  decide

/-- C2 (amended): when the validator reports the session invalid, the
coordinator clears the persistent store session entries and the original
request is rejected; the continuations queued during the cycle are
dropped unsettled — the cycle emits no observable that resolves or
rejects any of them. -/
theorem failed_revalidation_amended (st : Store) (sid : String)
    (hsid : st.session_id = some sid) (hne : sid ≠ "")
    (r : Req) (rs : List Req) (hids : ∀ x ∈ rs, x.id ≠ r.id) :
    ((runC (initCoord st) ((r :: rs).map CEvent.fail401 ++
        [CEvent.validationDone false])).1.store = Store.mk none none none) ∧
    ((runC (initCoord st) ((r :: rs).map CEvent.fail401 ++
        [CEvent.validationDone false])).2 =
      [Obs.validateCall sid, Obs.clearStore, Obs.reject r.id]) ∧
    (∀ q ∈ rs, ∀ o ∈ (runC (initCoord st) ((r :: rs).map CEvent.fail401 ++
        [CEvent.validationDone false])).2, settlesReq q.id o = false) := by
  have htr : (runC (initCoord st) ((r :: rs).map CEvent.fail401 ++
      [CEvent.validationDone false])) =
      ((runC (CoordState.mk true rs [r.id] (some (r, sid)) st) [CEvent.validationDone false]).1,
        [Obs.validateCall sid] ++
        (runC (CoordState.mk true rs [r.id] (some (r, sid)) st)
          [CEvent.validationDone false]).2) := by
    rw [runC_append, runC_cycle_start st sid hsid hne r rs hids]
  refine ⟨?_, ?_, ?_⟩
  · rw [htr]
    simp [runC, stepC, cycleEnd, Store.clearAuth]
  · rw [htr]
    simp [runC, stepC]
  · intro q hq o ho
    rw [htr] at ho
    simp only [runC, stepC] at ho
    have hcases : o = Obs.validateCall sid ∨ o = Obs.clearStore ∨ o = Obs.reject r.id := by
      simpa using ho
    have hne2 : r.id ≠ q.id := fun h => (hids q hq) h.symm
    rcases hcases with h | h | h <;> simp [h, settlesReq, hne2]

/-- Witness for C2 amended: requests 0 and 1, stored session `S1`,
validator reports invalid. -/
theorem failed_revalidation_amended_witness :
    ((runC (initCoord (Store.mk (some "S1") (some "u") none))
        ((Req.mk 0 false :: [Req.mk 1 false]).map CEvent.fail401 ++
          [CEvent.validationDone false])).1.store = Store.mk none none none) ∧
    ((runC (initCoord (Store.mk (some "S1") (some "u") none))
        ((Req.mk 0 false :: [Req.mk 1 false]).map CEvent.fail401 ++
          [CEvent.validationDone false])).2 =
      [Obs.validateCall "S1", Obs.clearStore, Obs.reject (Req.mk 0 false).id]) ∧
    (∀ q ∈ [Req.mk 1 false], ∀ o ∈ (runC (initCoord (Store.mk (some "S1") (some "u") none))
        ((Req.mk 0 false :: [Req.mk 1 false]).map CEvent.fail401 ++
          [CEvent.validationDone false])).2, settlesReq q.id o = false) :=
  failed_revalidation_amended (Store.mk (some "S1") (some "u") none) "S1" rfl (by decide)
    (Req.mk 0 false) [Req.mk 1 false] (by decide)

/-- C5 counterexample: while the validation for request 0 is in flight,
the session-validation request itself (a request carrying the skip-auth
marker, here id 5) receives a 401.  The response interceptor consults
only the status and the retry flag, never the skip-auth header, so the
request is enqueued into the revalidation cycle instead of having its
error surfaced: the queue now holds it and no observable settles it,
refuting the claim. -/
theorem skip_auth_401_cex :
    ((runC (initCoord (Store.mk (some "S1") none none))
        [CEvent.fail401 (Req.mk 0 false), CEvent.fail401 (Req.mk 5 true)]).1.refreshSubscribers
      = [Req.mk 5 true]) ∧
    (∀ o ∈ (runC (initCoord (Store.mk (some "S1") none none))
        [CEvent.fail401 (Req.mk 0 false), CEvent.fail401 (Req.mk 5 true)]).2,
      settlesReq 5 o = false) := by
  decide

/-- C5 (amended): the response interceptor does not consult the
skip-authentication marker.  A 401 on a skip-auth request while a
validation is in flight — the situation of the validation call itself,
which is only ever issued after `isRefreshing` is set — is enqueued like
any other 401: the queue grows by that request and nothing is emitted,
so no second validation call starts and the error is not surfaced to the
caller. -/
theorem skip_auth_401_amended (s : CoordState) (r : Req) (hskip : r.skipAuth = true)
    (hRef : s.isRefreshing = true) (hr : r.id ∉ s.retried) :
    stepC s (CEvent.fail401 r) =
      ({ s with refreshSubscribers := s.refreshSubscribers ++ [r] }, []) :=
  stepC_enqueue s r hRef hr

/-- Witness for C5 amended: the skip-auth request 5 enqueued mid-cycle. -/
theorem skip_auth_401_amended_witness :
    stepC (CoordState.mk true [] [0] (some (Req.mk 0 false, "S1")) (Store.mk (some "S1") none none))
        (CEvent.fail401 (Req.mk 5 true)) =
      ({ CoordState.mk true [] [0] (some (Req.mk 0 false, "S1")) (Store.mk (some "S1") none none)
          with refreshSubscribers := [] ++ [Req.mk 5 true] }, []) :=
  skip_auth_401_amended
    (CoordState.mk true [] [0] (some (Req.mk 0 false, "S1")) (Store.mk (some "S1") none none))
    (Req.mk 5 true) rfl rfl (by decide)

/-! ## Authentication state machine (AuthContext.tsx, authService.ts) -/

/-- The authenticated user record (auth.types.ts `AuthUser`); the two
optional capability flags are `Option` as in the source. -/
structure AuthUser where
  id : Nat
  user_type : String
  first_name : String
  last_name : String
  email : String
  username : String
  is_active : Bool
  can_access_dashboard : Option Bool
  is_faculty : Option Bool
deriving Repr, DecidableEq

/-- Escape characters for inclusion in a JSON string literal (model of
what `JSON.stringify` does to string fields). -/
def escapeJsonChars : List Char → List Char
  | [] => []
  | c :: rest =>
      if c = '"' then '\\' :: '"' :: escapeJsonChars rest
      else if c = '\\' then '\\' :: '\\' :: escapeJsonChars rest
      else c :: escapeJsonChars rest

/-- Escape a string for inclusion in a JSON string literal. -/
def escapeJsonString (s : String) : String :=
  String.mk (escapeJsonChars s.data)

/-- Model of `JSON.stringify(user)` for the `AuthUser` record; optional
fields that are absent are omitted, as `JSON.stringify` omits
`undefined` properties. -/
def jsonStringifyUser (u : AuthUser) : String :=
  "\x7b\"id\":" ++ toString u.id ++
  ",\"user_type\":\"" ++ escapeJsonString u.user_type ++
  "\",\"first_name\":\"" ++ escapeJsonString u.first_name ++
  "\",\"last_name\":\"" ++ escapeJsonString u.last_name ++
  "\",\"email\":\"" ++ escapeJsonString u.email ++
  "\",\"username\":\"" ++ escapeJsonString u.username ++
  "\",\"is_active\":" ++ (if u.is_active then "true" else "false") ++
  (match u.can_access_dashboard with
   | some b => ",\"can_access_dashboard\":" ++ (if b then "true" else "false")
   | none => "") ++
  (match u.is_faculty with
   | some b => ",\"is_faculty\":" ++ (if b then "true" else "false")
   | none => "") ++
  "\x7d"

/-- `authService.setAuthData` (authService.ts lines 38-41): writes the
session id and the serialized user record. -/
def setAuthData (st : Store) (sid : String) (u : AuthUser) : Store :=
  { st with session_id := some sid, user := some (jsonStringifyUser u) }

/-- `authService.setTempSession` (authService.ts lines 56-58). -/
def setTempSession (st : Store) (t : String) : Store :=
  { st with temp_session_id := some t }

/-- `authService.clearTempSession` (authService.ts lines 64-66). -/
def clearTempSession (st : Store) : Store :=
  { st with temp_session_id := none }

/-- The in-memory `AuthState` (auth.types.ts, AuthContext.tsx lines 6-14). -/
structure AuthState where
  user : Option AuthUser
  session_id : Option String
  temp_session_id : Option String
  requires_2fa : Bool
  is_authenticated : Bool
  is_loading : Bool
  error : Option String
deriving Repr, DecidableEq

/-- `initialState` of AuthContext.tsx lines 6-14. -/
def initialState : AuthState :=
  { user := none, session_id := none, temp_session_id := none, requires_2fa := false,
    is_authenticated := false, is_loading := true, error := none }

/-- The user record built by `login` on a full success (AuthContext.tsx
lines 82-90): names empty, email and username from the submitted
identifier, active, no capability flags. -/
def mkLoginUser (uid : Nat) (utype : String) (identifier : String) : AuthUser :=
  { id := uid, user_type := utype, first_name := "", last_name := "",
    email := identifier, username := identifier, is_active := true,
    can_access_dashboard := none, is_faculty := none }

/-- The user record built by `verify2FA` on success (AuthContext.tsx
lines 146-154): all display fields empty. -/
def mkVerifyUser (uid : Nat) (utype : String) : AuthUser :=
  { id := uid, user_type := utype, first_name := "", last_name := "",
    email := "", username := "", is_active := true,
    can_access_dashboard := none, is_faculty := none }

/-- The observable micro-steps of the four actions of AuthContext.tsx.
Each constructor is one synchronous `setState` (plus its store writes);
the asynchronous actions `login` and `verify2FA` contribute a start step
(entering loading) and one completion step carrying the decoded service
response.  `verify2FAStart` embeds the guard of lines 133-135: with no
temporary session the action returns before any state change.
`logoutSettle` is the unconditional reset of lines 200-204 (the
best-effort network logout has no state effect, its failure being
swallowed). -/
inductive AuthAct where
  | loginStart
  | loginSuccess2FA (temp : String) (expires : Option Nat)
  | loginSuccessFull (sid : String) (uid : Nat) (utype : String) (identifier : String)
  | loginFailure (msg : String)
  | loginError (msg : String)
  | verify2FAStart
  | verify2FASuccess (sid : String) (uid : Nat) (utype : String)
  | verify2FAFailure (msg : String)
  | verify2FAError (msg : String)
  | logoutSettle
  | clearErrorAct
deriving Repr, DecidableEq

/-- One micro-step of the state machine, acting on the in-memory state
and the persistent store, translated from AuthContext.tsx:
`loginStart` lines 63; `loginSuccess2FA` lines 69-79 (note: it preserves
`session_id` and `is_authenticated` from the previous state);
`loginSuccessFull` lines 80-109 (a full explicit state);
`loginFailure` lines 110-119; `loginError` lines 120-129;
`verify2FAStart` lines 132-137; `verify2FASuccess` lines 145-169 (a full
explicit state, store updated then temp session cleared);
`verify2FAFailure` lines 170-178; `verify2FAError` lines 179-188;
`logoutSettle` lines 191-205; `clearErrorAct` lines 207-209. -/
def authStep (p : AuthState × Store) (a : AuthAct) : AuthState × Store :=
  match a with
  | .loginStart =>
      ({ p.1 with is_loading := true, error := none }, p.2)
  | .loginSuccess2FA temp _ =>
      ({ p.1 with temp_session_id := some temp, requires_2fa := true, is_loading := false },
       setTempSession p.2 temp)
  | .loginSuccessFull sid uid utype identifier =>
      (AuthState.mk (some (mkLoginUser uid utype identifier)) (some sid) none false true
        false none,
       setAuthData p.2 sid (mkLoginUser uid utype identifier))
  | .loginFailure msg =>
      ({ p.1 with error := some msg, is_loading := false }, p.2)
  | .loginError msg =>
      ({ p.1 with error := some msg, is_loading := false }, p.2)
  | .verify2FAStart =>
      if p.1.temp_session_id = none then p
      else ({ p.1 with is_loading := true, error := none }, p.2)
  | .verify2FASuccess sid uid utype =>
      (AuthState.mk (some (mkVerifyUser uid utype)) (some sid) none false true false none,
       clearTempSession (setAuthData p.2 sid (mkVerifyUser uid utype)))
  | .verify2FAFailure msg =>
      ({ p.1 with error := some msg, is_loading := false }, p.2)
  | .verify2FAError msg =>
      ({ p.1 with error := some msg, is_loading := false }, p.2)
  | .logoutSettle =>
      ({ initialState with is_loading := false }, p.2.clearAuth)
  | .clearErrorAct =>
      ({ p.1 with error := none }, p.2)

/-- The state-exclusivity invariant claimed by the spec: `sessionId` and
`tempSessionId` never both non-null, `isAuthenticated` implies a session
and no temp session, `requires2FA` implies a temp session and no
session. -/
def authInv (s : AuthState) : Prop :=
  (s.session_id = none ∨ s.temp_session_id = none) ∧
  (s.is_authenticated = true → s.session_id ≠ none ∧ s.temp_session_id = none) ∧
  (s.requires_2fa = true → s.temp_session_id ≠ none ∧ s.session_id = none)

instance (s : AuthState) : Decidable (authInv s) := by
  unfold authInv
  infer_instance

/-- The restriction the counterexample to C3 forces: the 2FA branch of a
login response may only be processed in a state whose `session_id` is
null (login not invoked from an already-authenticated state). -/
def loginGuardB (s : AuthState) : AuthAct → Bool
  | .loginSuccess2FA _ _ => s.session_id.isNone
  | _ => true

/-- The guard holds at every point along the run. -/
def guardedFromB : AuthState × Store → List AuthAct → Bool
  | _, [] => true
  | p, a :: rest => loginGuardB p.1 a && guardedFromB (authStep p a) rest

/-- Every guarded micro-step preserves the exclusivity invariant. -/
theorem authStep_preserves_inv (p : AuthState × Store) (a : AuthAct)
    (hinv : authInv p.1) (hg : loginGuardB p.1 a = true) : authInv (authStep p a).1 := by
  obtain ⟨s, st⟩ := p
  obtain ⟨h1, h2, h3⟩ := hinv
  cases a with
  | loginStart => exact ⟨h1, h2, h3⟩
  | loginSuccess2FA temp e =>
      have hnone : s.session_id = none := by
        simpa [loginGuardB, Option.isNone_iff_eq_none] using hg
      exact ⟨Or.inl hnone, fun hauth => absurd hnone (h2 hauth).1,
        fun _ => ⟨by simp [authStep], hnone⟩⟩
  | loginSuccessFull sid uid utype identifier =>
      exact ⟨Or.inr rfl, fun _ => ⟨by simp [authStep], rfl⟩, fun h => by simp [authStep] at h⟩
  | loginFailure msg => exact ⟨h1, h2, h3⟩
  | loginError msg => exact ⟨h1, h2, h3⟩
  | verify2FAStart =>
      by_cases ht : s.temp_session_id = none <;> simp [authStep, ht] <;>
        exact ⟨h1, h2, h3⟩
  | verify2FASuccess sid uid utype =>
      exact ⟨Or.inr rfl, fun _ => ⟨by simp [authStep], rfl⟩, fun h => by simp [authStep] at h⟩
  | verify2FAFailure msg => exact ⟨h1, h2, h3⟩
  | verify2FAError msg => exact ⟨h1, h2, h3⟩
  | logoutSettle =>
      exact ⟨Or.inl rfl, fun h => by simp [authStep, initialState] at h,
        fun h => by simp [authStep, initialState] at h⟩
  | clearErrorAct => exact ⟨h1, h2, h3⟩

/-- The invariant is inductive along any guarded run. -/
theorem authInv_foldl (acts : List AuthAct) :
    ∀ p : AuthState × Store, authInv p.1 → guardedFromB p acts = true →
      authInv (List.foldl authStep p acts).1 := by
  induction acts with
  | nil => intro p h _; simpa using h
  | cons a rest ih =>
      intro p hinv hg
      rw [guardedFromB, Bool.and_eq_true] at hg
      rw [List.foldl_cons]
      exact ih (authStep p a) (authStep_preserves_inv p a hinv hg.1) hg.2

/-- C3 counterexample: starting from the initial state, log in fully
(session `S1`), then invoke `login` again from the authenticated state
and receive a 2FA-required response (`T1`).  The 2FA branch of `login`
preserves the previous `session_id` and `is_authenticated`, so the
resulting state has both `session_id` and `temp_session_id` non-null,
with `is_authenticated` and `requires_2fa` simultaneously true —
refuting the claimed exclusivity invariant for arbitrary action
sequences. -/
theorem auth_state_exclusivity_cex :
    ((List.foldl authStep (initialState, Store.mk none none none)
        [AuthAct.loginStart, AuthAct.loginSuccessFull "S1" 1 "internal_user" "a@b.com",
         AuthAct.loginStart, AuthAct.loginSuccess2FA "T1" (some 600)]).1.session_id
      = some "S1") ∧
    ((List.foldl authStep (initialState, Store.mk none none none)
        [AuthAct.loginStart, AuthAct.loginSuccessFull "S1" 1 "internal_user" "a@b.com",
         AuthAct.loginStart, AuthAct.loginSuccess2FA "T1" (some 600)]).1.temp_session_id
      = some "T1") ∧
    ((List.foldl authStep (initialState, Store.mk none none none)
        [AuthAct.loginStart, AuthAct.loginSuccessFull "S1" 1 "internal_user" "a@b.com",
         AuthAct.loginStart, AuthAct.loginSuccess2FA "T1" (some 600)]).1.is_authenticated
      = true) ∧
    ((List.foldl authStep (initialState, Store.mk none none none)
        [AuthAct.loginStart, AuthAct.loginSuccessFull "S1" 1 "internal_user" "a@b.com",
         AuthAct.loginStart, AuthAct.loginSuccess2FA "T1" (some 600)]).1.requires_2fa
      = true) := by
  decide

/-- C3 (amended): after any sequence of the actions starting from the
initial state, provided the 2FA branch of a login response is only
processed in a state whose `session_id` is null (i.e. `login` is not
invoked from an already-authenticated state), the `AuthState` never has
both `session_id` and `temp_session_id` non-null, `is_authenticated`
implies `session_id` non-null and `temp_session_id` null, and
`requires_2fa` implies `temp_session_id` non-null and `session_id`
null. -/
theorem auth_state_exclusivity_amended (st : Store) (acts : List AuthAct)
    (hg : guardedFromB (initialState, st) acts = true) :
    authInv (List.foldl authStep (initialState, st) acts).1 :=
  authInv_foldl acts (initialState, st) (show authInv initialState by decide) hg

/-- Witness for C3 amended: a full 2FA login flow from the initial
state. -/
theorem auth_state_exclusivity_amended_witness :
    authInv (List.foldl authStep (initialState, Store.mk none none none)
      [AuthAct.loginStart, AuthAct.loginSuccess2FA "T1" (some 600),
       AuthAct.verify2FAStart, AuthAct.verify2FASuccess "S2" 1 "internal_user",
       AuthAct.logoutSettle]).1 :=
  auth_state_exclusivity_amended (Store.mk none none none)
    [AuthAct.loginStart, AuthAct.loginSuccess2FA "T1" (some 600),
     AuthAct.verify2FAStart, AuthAct.verify2FASuccess "S2" 1 "internal_user",
     AuthAct.logoutSettle] (by decide)

/-- `TwoFactorResponse` (auth.types.ts): the fields `verify2FA` reads. -/
structure TwoFactorResponse where
  success : Bool
  message : String
  user_id : Option Nat
  user_type : Option String
  session_id : Option String
deriving Repr, DecidableEq

/-- The value the `verify2FA` action returns to its caller. -/
structure VerifyRet where
  success : Bool
  error : Option String
deriving Repr, DecidableEq

/-- The whole `verify2FA` action of AuthContext.tsx lines 132-189 as one
function of the current state, the store, the submitted code and the
outcome of the service call (`Except.error` being a rejected promise,
whose message the catch block extracts with its fallback).  The third
component records whether the network was contacted at all.  The guard
of lines 133-135 returns before any `setState` or store write and
before the service call; on the other paths the intermediate loading
state is folded into the final state shown (`is_loading` ends false on
every completion branch).  The non-null assertions on `user_id`,
`user_type` and `session_id` of lines 146-161 are modelled with
defaults. -/
def verify2FA (s : AuthState) (st : Store) (_code : String)
    (svc : Except String TwoFactorResponse) : AuthState × Store × Bool × VerifyRet :=
  if s.temp_session_id = none then
    (s, st, false, VerifyRet.mk false (some "No hay sesión temporal"))
  else
    match svc with
    | .ok resp =>
        if resp.success then
          let u := mkVerifyUser (resp.user_id.getD 0) (resp.user_type.getD "")
          (AuthState.mk (some u) (some (resp.session_id.getD "")) none false true false none,
           clearTempSession (setAuthData st (resp.session_id.getD "") u), true,
           VerifyRet.mk true none)
        else
          ({ s with error := some resp.message, is_loading := false }, st, true,
           VerifyRet.mk false (some resp.message))
    | .error msg =>
        ({ s with error := some msg, is_loading := false }, st, true,
         VerifyRet.mk false (some msg))

/-- C8 (confirmed): whenever `temp_session_id` is null, `verify2FA`
fails immediately with the no-temp-session error, contacts no network,
and leaves the `AuthState` (including `is_loading`) and the store
unchanged, whatever code is submitted and whatever the service would
have answered. -/
theorem verify2fa_no_temp_session (s : AuthState) (st : Store) (code : String)
    (svc : Except String TwoFactorResponse) (h : s.temp_session_id = none) :
    verify2FA s st code svc =
      (s, st, false, VerifyRet.mk false (some "No hay sesión temporal")) := by
  simp [verify2FA, h]

/-- Witness for C8: the initial state has no temporary session. -/
theorem verify2fa_no_temp_session_witness :
    verify2FA initialState (Store.mk none none none) "000000"
        (Except.ok (TwoFactorResponse.mk true "ok" (some 1) (some "internal_user") (some "S1"))) =
      (initialState, Store.mk none none none, false,
        VerifyRet.mk false (some "No hay sesión temporal")) :=
  verify2fa_no_temp_session initialState (Store.mk none none none) "000000"
    (Except.ok (TwoFactorResponse.mk true "ok" (some 1) (some "internal_user") (some "S1"))) rfl

/-! ## Temporary session timer (useTwoFactor.ts lines 14-37) -/

/-- The part of the hook state the countdown effect touches: the
`timeLeft` state variable, whether a `setInterval` timer is currently
registered, and how many times `options.onExpired` has been invoked. -/
structure TimerState where
  timeLeft : Nat
  intervalActive : Bool
  fires : Nat
deriving Repr, DecidableEq

/-- The effect of useTwoFactor.ts lines 19-37, run at mount and again
after every render in which `timeLeft` changed (it is listed in the
dependency array); the cleanup of the previous run (line 36) has
already cleared the previous interval.  If `timeLeft` is at zero the
expired callback fires and no interval starts; otherwise a fresh
one-second interval starts. -/
def runEffect (s : TimerState) : TimerState :=
  let s0 : TimerState := { s with intervalActive := false }
  if s0.timeLeft = 0 then { s0 with fires := s0.fires + 1 }
  else { s0 with intervalActive := true }

/-- Mounting the hook: line 17 initializes `timeLeft` to
`options.expiresIn || 600`, so a zero (falsy) value falls back to 600;
then the effect runs. -/
def mountTimer (expiresIn : Nat) : TimerState :=
  runEffect (TimerState.mk (if expiresIn = 0 then 600 else expiresIn) false 0)

/-- One firing of the interval callback (lines 25-34): when the previous
value is at most 1 the callback clears the interval, invokes the
expired callback and sets `timeLeft` to 0; otherwise it decrements.
Either way `timeLeft` changes (an active interval implies
`timeLeft ≥ 1`, since the effect only starts one at a positive value),
so React re-runs the effect — cleanup then body — afterwards.  A tick
of a cleared interval does nothing. -/
def tick (s : TimerState) : TimerState :=
  if s.intervalActive then
    if s.timeLeft ≤ 1 then
      runEffect { s with intervalActive := false, fires := s.fires + 1, timeLeft := 0 }
    else
      runEffect { s with timeLeft := s.timeLeft - 1 }
  else s

/-- Iterated seconds. -/
def iterTick : Nat → TimerState → TimerState
  | 0, s => s
  | n + 1, s => iterTick n (tick s)

/-- External timer events: a one-second tick, or the disposal of the
component (React runs the effect cleanup of line 36 and never re-runs
the effect afterwards). -/
inductive TEvent where
  | tick
  | unmount
deriving Repr, DecidableEq

def stepT (s : TimerState) : TEvent → TimerState
  | .tick => tick s
  | .unmount => { s with intervalActive := false }

def runT (s : TimerState) : List TEvent → TimerState
  | [] => s
  | e :: rest => runT (stepT s e) rest

/-- A countdown from `k` with an armed interval reaches zero after `k`
ticks having fired the expired callback exactly twice: once inside the
final interval callback and once more when the effect re-runs with
`timeLeft = 0`. -/
theorem iterTick_countdown (k : Nat) : ∀ f : Nat, 1 ≤ k →
    iterTick k (TimerState.mk k true f) = TimerState.mk 0 false (f + 2) := by
  induction k with
  | zero => intro f h; omega
  | succ k ih =>
      intro f _
      cases Nat.eq_zero_or_pos k with
      | inl h0 =>
          subst h0
          simp [iterTick, tick, runEffect]
      | inr hpos =>
          have h2 : ¬ (k + 1 ≤ 1) := by omega
          have hk0 : ¬ (k = 0) := by omega
          have hstep : tick (TimerState.mk (k + 1) true f) = TimerState.mk k true f := by
            simp [tick, runEffect, h2, hk0]
          rw [iterTick, hstep]
          exact ih f hpos

/-- Once the interval is cleared, no later event fires the expired
callback: ticks of a cleared interval are no-ops and unmount keeps it
cleared. -/
theorem runT_inactive_fires (evs : List TEvent) :
    ∀ s : TimerState, s.intervalActive = false →
      (runT s evs).fires = s.fires ∧ (runT s evs).intervalActive = false := by
  induction evs with
  | nil => intro s h; exact ⟨rfl, h⟩
  | cons e rest ih =>
      intro s h
      cases e with
      | tick =>
          rw [runT]
          have hstep : stepT s TEvent.tick = s := by simp [stepT, tick, h]
          rw [hstep]
          exact ih s h
      | unmount =>
          rw [runT]
          exact ih { s with intervalActive := false } rfl

/-- C6 counterexample: a timer started with the positive `expiresIn = 1`
and run to zero fires the expired notification twice, not exactly once —
the interval callback fires it on reaching zero, and the effect, re-run
because `timeLeft` changed to 0, fires it again. -/
theorem timer_double_fire_cex :
    (iterTick 1 (mountTimer 1)).fires = 2 ∧ ¬ (iterTick 1 (mountTimer 1)).fires = 1 := by
  decide

/-- C6 (amended): for every run started with a positive `expiresIn` and
ticked down to zero, the expired notification fires exactly twice (once
from the final interval callback, once from the effect re-running at
zero); and cancelling (disposing) the timer still guarantees that no
later event fires the expired notification. -/
theorem timer_fires_and_cancellation_amended (n : Nat) (hn : 1 ≤ n)
    (s : TimerState) (evs : List TEvent) :
    (iterTick n (mountTimer n)).fires = 2 ∧
    (runT (stepT s TEvent.unmount) evs).fires = s.fires := by
  constructor
  · have hn0 : ¬ (n = 0) := by omega
    have hm : mountTimer n = TimerState.mk n true 0 := by
      simp [mountTimer, runEffect, hn0]
    rw [hm, iterTick_countdown n 0 hn]
  · exact (runT_inactive_fires evs { s with intervalActive := false } rfl).1

/-- Witness for C6 amended: a 5-second challenge cancelled mid-way, and
a 1-second challenge run to zero. -/
theorem timer_fires_and_cancellation_amended_witness :
    (iterTick 1 (mountTimer 1)).fires = 2 ∧
    (runT (stepT (TimerState.mk 5 true 0) TEvent.unmount)
      [TEvent.tick, TEvent.tick, TEvent.tick]).fires = (TimerState.mk 5 true 0).fires :=
  timer_fires_and_cancellation_amended 1 (by decide) (TimerState.mk 5 true 0)
    [TEvent.tick, TEvent.tick, TEvent.tick]

/-! ## Session validator (authService.ts lines 28-35, apiClient.ts lines 116-126) -/

/-- The possible outcomes of the axios GET issued by `validateSession`:
a server response carrying an HTTP status and the boolean `valid` field
of the body, or a transport failure (no response received, timeout,
aborted). -/
inductive AxiosOutcome where
  | response (status : Nat) (valid : Bool)
  | transportErr (msg : String)
deriving Repr, DecidableEq

/-- Settlement of a promise as its awaiter observes it: fulfilled,
rejected, or never settling at all. -/
inductive Settled (α : Type) where
  | ok (v : α)
  | err (msg : String)
  | pending
deriving Repr, DecidableEq

/-- The promise of the validation GET as `apiClient.validateSession`
awaits it.  The GET goes through `this.instance`, so the response
interceptor (apiClient.ts lines 54-113) disposes of it: a 2xx response
fulfils the promise with the body (lines 55-57); a non-2xx, non-401
response rejects it with the normalized error (line 111); a transport
failure likewise rejects (lines 111, 160-163).  A 401 response hits the
401 branch (line 69; the GET uses a fresh config, so `_retry` is
unset), and because `apiClient.validateSession` is invoked only after
`isRefreshing` is set (line 83 precedes the await at line 90), it takes
the enqueue path of lines 70-80 — the same behaviour proved at
`stepC_enqueue` — so the returned promise can only settle when
`processRefreshQueue` runs, which happens only after the
`validateSession` await itself resolves: within the program it never
settles. -/
def validateGetPromise : AxiosOutcome → Settled Bool
  | .response status v =>
      if 200 ≤ status ∧ status < 300 then Settled.ok v
      else if status = 401 then Settled.pending
      else Settled.err "Request failed"
  | .transportErr msg => Settled.err msg

/-- `validateSession` (apiClient.ts lines 116-126; the authService.ts
lines 28-35 copy is the same try/catch around the same GET): await the
GET, return `response.data.valid`, and catch a rejection as `false`.
If the awaited promise never settles, the await never resumes and
`validateSession` itself never settles. -/
def validateSession (o : AxiosOutcome) : Settled Bool :=
  match validateGetPromise o with
  | Settled.ok v => Settled.ok v
  | Settled.err _ => Settled.ok false
  | Settled.pending => Settled.pending

/-- C7 counterexample: a 401 response to the validation GET — a
non-success response — does not yield `false`: the response interceptor
enqueues the GET into the pending queue of the very cycle that is
awaiting the validator, so `validateSession` never settles at all; it
neither returns a boolean nor throws, refuting fail-closedness and
totality at this outcome. -/
theorem validate_session_401_pending_cex :
    validateSession (AxiosOutcome.response 401 false) = Settled.pending ∧
    ¬ validateSession (AxiosOutcome.response 401 false) = Settled.ok false := by
  decide

/-- C7 (amended): `validateSession` never throws to its caller; every
transport failure and every non-success response other than 401 yields
`false` (fail-closed), and a 2xx response yields the `valid` field of
the body; but a 401 response makes the call hang instead of yielding
`false` — the interceptor enqueues the validation GET into the cycle
that awaits the validator, so the promise never settles. -/
theorem validate_session_amended (o : AxiosOutcome) (status : Nat) (v : Bool)
    (msg : String) :
    (∀ e, ¬ validateSession o = Settled.err e) ∧
    (¬ (200 ≤ status ∧ status < 300) → status ≠ 401 →
      validateSession (AxiosOutcome.response status v) = Settled.ok false) ∧
    (validateSession (AxiosOutcome.transportErr msg) = Settled.ok false) ∧
    ((200 ≤ status ∧ status < 300) →
      validateSession (AxiosOutcome.response status v) = Settled.ok v) ∧
    (validateSession (AxiosOutcome.response 401 v) = Settled.pending) := by
  refine ⟨?_, ?_, rfl, ?_, rfl⟩
  · intro e
    cases o with
    | response st vl =>
        by_cases h2 : 200 ≤ st ∧ st < 300
        · simp [validateSession, validateGetPromise, h2]
        · by_cases h4 : st = 401 <;> simp [validateSession, validateGetPromise, h2, h4]
    | transportErr m => simp [validateSession, validateGetPromise]
  · intro h2 h4
    simp [validateSession, validateGetPromise, h2, h4]
  · intro h2
    simp [validateSession, validateGetPromise, h2]

/-- Witness for C7 amended: a 500 response, a transport failure, a 200
response with a true body, and the pending 401. -/
theorem validate_session_amended_witness :
    (∀ e, ¬ validateSession (AxiosOutcome.response 500 true) = Settled.err e) ∧
    (validateSession (AxiosOutcome.response 500 true) = Settled.ok false) ∧
    (validateSession (AxiosOutcome.transportErr "Network Error") = Settled.ok false) ∧
    (validateSession (AxiosOutcome.response 200 true) = Settled.ok true) ∧
    (validateSession (AxiosOutcome.response 401 true) = Settled.pending) := by
  obtain ⟨h1, h2, h3, _, _⟩ :=
    validate_session_amended (AxiosOutcome.response 500 true) 500 true "Network Error"
  obtain ⟨_, _, _, h4, h5⟩ :=
    validate_session_amended (AxiosOutcome.response 200 true) 200 true "Network Error"
  exact ⟨h1, h2 (by omega) (by omega), h3, h4 (by omega), h5⟩

/-! ## Request configuration and the login request (apiClient.ts, authService.ts) -/

/-- `RequestConfig` (api/types.ts): the optional per-call options the
public `ApiClient` methods accept. -/
structure RequestConfig where
  skipAuth : Option Bool
  timeout : Option Nat
deriving Repr, DecidableEq

/-- The headers of an outgoing request that the auth core touches:
the `skip-auth` marker, the `Authorization` bearer, and the always-set
device-info and request-time headers. -/
structure ReqHeaders where
  skip_auth : Option String
  authorization : Option String
  deviceInfoSet : Bool
  requestTimeSet : Bool
deriving Repr, DecidableEq

def emptyHeaders : ReqHeaders :=
  ReqHeaders.mk none none false false

structure AxiosConfig where
  headers : ReqHeaders
  timeout : Option Nat
deriving Repr, DecidableEq

/-- `mergeConfig` (apiClient.ts lines 202-214): starts from an empty
config; if the caller passed `skipAuth` truthy it sets the skip-auth
header to the string true; a truthy timeout is copied. -/
def mergeConfig (config : Option RequestConfig) : AxiosConfig :=
  let base : AxiosConfig := AxiosConfig.mk emptyHeaders none
  match config with
  | none => base
  | some cfg =>
      let base1 := if cfg.skipAuth = some true then
          { base with headers := { base.headers with skip_auth := some "true" } }
        else base
      match cfg.timeout with
      | some t => if t ≠ 0 then { base1 with timeout := some t } else base1
      | none => base1

/-- The request interceptor (apiClient.ts lines 26-46): when the store
holds a truthy `session_id` and the config does not carry a truthy
skip-auth header, the `Authorization` header is overwritten with the
bearer credential; the device-info and request-time headers are always
set. -/
def requestInterceptor (st : Store) (cfg : AxiosConfig) : AxiosConfig :=
  let cfg1 :=
    if strTruthy st.session_id && !strTruthy cfg.headers.skip_auth then
      { cfg with headers :=
        { cfg.headers with authorization := some ("Bearer " ++ (st.session_id.getD "")) } }
    else cfg
  { cfg1 with headers := { cfg1.headers with deviceInfoSet := true, requestTimeSet := true } }

/-- `authService.login` (authService.ts lines 14-17) calls
`apiClient.post(url, credentials)` with the config argument omitted:
the coordinator merges `none` and the request interceptor then decides
the headers of the outgoing login request from the store alone. -/
def loginRequestConfig (st : Store) : AxiosConfig :=
  requestInterceptor st (mergeConfig none)

/-- C9 counterexample: the login call passes no config, so the merged
config carries no skip-auth header, and with the session credential
`S1` in the persistent store the request interceptor attaches
`Bearer S1` to the outgoing login request — refuting both that login is
issued with `skipAuth = true` and that no stored bearer credential is
attached to it. -/
theorem login_skip_auth_cex :
    ((mergeConfig none).headers.skip_auth = none) ∧
    ((loginRequestConfig (Store.mk (some "S1") none none)).headers.authorization
      = some "Bearer S1") := by
  decide

/-- C9 (amended): every login invocation reaches the coordinator with no
request config, hence without the skip-auth marker; consequently, when
the persistent store holds a (truthy) session credential it is attached
as the bearer header of the login request, and a 401 on the login
request enters the ordinary revalidation path (here: from a quiescent
coordinator it starts a validation cycle). -/
theorem login_no_skip_auth_amended (st : Store) (sid : String)
    (hsid : st.session_id = some sid) (hne : sid ≠ "") :
    ((loginRequestConfig st).headers.skip_auth = none) ∧
    ((loginRequestConfig st).headers.authorization = some ("Bearer " ++ sid)) ∧
    (stepC (initCoord st) (CEvent.fail401 (Req.mk 0 false)) =
      (CoordState.mk true [] [0] (some (Req.mk 0 false, sid)) st,
       [Obs.validateCall sid])) := by
  refine ⟨?_, ?_, ?_⟩
  · simp [loginRequestConfig, requestInterceptor, mergeConfig, emptyHeaders, strTruthy,
      hsid, hne]
  · simp [loginRequestConfig, requestInterceptor, mergeConfig, emptyHeaders, strTruthy,
      hsid, hne]
  · simp [stepC, initCoord, strTruthy, hsid, hne]

/-- Witness for C9 amended: store holding the session credential `S1`. -/
theorem login_no_skip_auth_amended_witness :
    ((loginRequestConfig (Store.mk (some "S1") none none)).headers.skip_auth = none) ∧
    ((loginRequestConfig (Store.mk (some "S1") none none)).headers.authorization
      = some ("Bearer " ++ "S1")) ∧
    (stepC (initCoord (Store.mk (some "S1") none none)) (CEvent.fail401 (Req.mk 0 false)) =
      (CoordState.mk true [] [0] (some (Req.mk 0 false, "S1")) (Store.mk (some "S1") none none),
       [Obs.validateCall "S1"])) :=
  login_no_skip_auth_amended (Store.mk (some "S1") none none) "S1" rfl (by decide)

/-! ## Stored user records and JSON.parse (authService.ts lines 43-48) -/

/-- JSON values, as a model of what `JSON.parse` produces.  String and
number payloads keep their raw lexemes — only the shape and
well-formedness of the stored text matter to the embedding. -/
inductive Json where
  | null
  | bool (b : Bool)
  | num (lexeme : String)
  | str (lexeme : String)
  | arr (elems : List Json)
  | obj (members : List (String × Json))

def lbrace : Char := Char.ofNat 123

def rbrace : Char := Char.ofNat 125

def isJsonWs (c : Char) : Bool :=
  c = ' ' || c = '\t' || c = '\n' || c = '\r'

def skipWs : List Char → List Char
  | [] => []
  | c :: rest => if isJsonWs c then skipWs rest else c :: rest

def isJsonDigit (c : Char) : Bool :=
  '0' ≤ c && c ≤ '9'

def isHexDigit (c : Char) : Bool :=
  isJsonDigit c || ('a' ≤ c && c ≤ 'f') || ('A' ≤ c && c ≤ 'F')

def expectChars : List Char → List Char → Option (List Char)
  | [], cs => some cs
  | _ :: _, [] => none
  | e :: es, c :: cs => if c = e then expectChars es cs else none

def takeDigits : List Char → List Char × List Char
  | [] => ([], [])
  | c :: rest =>
      if isJsonDigit c then
        let p := takeDigits rest
        (c :: p.1, p.2)
      else ([], c :: rest)

/-- The integer part of a JSON number: a single 0, or a nonzero digit
followed by digits (leading zeros are invalid JSON). -/
def parseIntPart : List Char → Option (List Char × List Char)
  | [] => none
  | c :: rest =>
      if c = '0' then some ([c], rest)
      else if isJsonDigit c then
        let p := takeDigits rest
        some (c :: p.1, p.2)
      else none

/-- The optional fraction part: a dot followed by at least one digit. -/
def parseFracPart : List Char → Option (List Char × List Char)
  | '.' :: rest =>
      match takeDigits rest with
      | ([], _) => none
      | (ds, rest2) => some ('.' :: ds, rest2)
  | cs => some ([], cs)

/-- The optional exponent part: e or E, an optional sign, digits. -/
def parseExpPart : List Char → Option (List Char × List Char)
  | c :: rest =>
      if c = 'e' || c = 'E' then
        let signAndRest : List Char × List Char :=
          match rest with
          | s :: rest2 => if s = '+' || s = '-' then ([s], rest2) else ([], rest)
          | [] => ([], [])
        match takeDigits signAndRest.2 with
        | ([], _) => none
        | (ds, rest3) => some (c :: (signAndRest.1 ++ ds), rest3)
      else some ([], c :: rest)
  | [] => some ([], [])

/-- A JSON number lexeme: optional minus, integer part, optional
fraction, optional exponent. -/
def parseNumber (cs : List Char) : Option (String × List Char) :=
  let p : List Char × List Char :=
    match cs with
    | '-' :: rest => (['-'], rest)
    | _ => ([], cs)
  match parseIntPart p.2 with
  | none => none
  | some (ip, rest1) =>
      match parseFracPart rest1 with
      | none => none
      | some (fp, rest2) =>
          match parseExpPart rest2 with
          | none => none
          | some (ep, rest3) => some (String.mk (p.1 ++ ip ++ fp ++ ep), rest3)

/-- The remainder of a JSON string after its opening quote: collects the
raw characters up to the closing quote, validating escapes and
rejecting raw control characters. -/
def parseStringRest : List Char → Option (String × List Char)
  | [] => none
  | c :: rest =>
      if c = '"' then some ("", rest)
      else if c = '\\' then
        match rest with
        | [] => none
        | e :: rest2 =>
            if e = '"' || e = '\\' || e = '/' || e = 'b' || e = 'f' || e = 'n' ||
                e = 'r' || e = 't' then
              (parseStringRest rest2).map (fun p => (String.mk [c, e] ++ p.1, p.2))
            else if e = 'u' then
              match rest2 with
              | h1 :: h2 :: h3 :: h4 :: rest3 =>
                  if isHexDigit h1 && isHexDigit h2 && isHexDigit h3 && isHexDigit h4 then
                    (parseStringRest rest3).map
                      (fun p => (String.mk [c, e, h1, h2, h3, h4] ++ p.1, p.2))
                  else none
              | _ => none
            else none
      else if c.toNat < 32 then none
      else (parseStringRest rest).map (fun p => (String.mk [c] ++ p.1, p.2))

mutual

/-- A JSON value (ECMA-404): the fuel only bounds the nesting recursion
and every recursive call consumes input, so an input-length budget never
runs out on real inputs. -/
def parseValue : Nat → List Char → Option (Json × List Char)
  | 0, _ => none
  | fuel + 1, cs =>
      match skipWs cs with
      | [] => none
      | c :: rest =>
          if c = '"' then (parseStringRest rest).map (fun p => (Json.str p.1, p.2))
          else if c = 't' then
            (expectChars ['r', 'u', 'e'] rest).map (fun r => (Json.bool true, r))
          else if c = 'f' then
            (expectChars ['a', 'l', 's', 'e'] rest).map (fun r => (Json.bool false, r))
          else if c = 'n' then
            (expectChars ['u', 'l', 'l'] rest).map (fun r => (Json.null, r))
          else if c = '[' then
            match skipWs rest with
            | ']' :: rest2 => some (Json.arr [], rest2)
            | _ => (parseElems fuel rest).map (fun p => (Json.arr p.1, p.2))
          else if c = lbrace then
            match skipWs rest with
            | [] => none
            | d :: rest2 =>
                if d = rbrace then some (Json.obj [], rest2)
                else (parseMembers fuel (d :: rest2)).map (fun p => (Json.obj p.1, p.2))
          else (parseNumber (c :: rest)).map (fun p => (Json.num p.1, p.2))
termination_by structural fuel _ => fuel

/-- Array elements after the opening bracket (nonempty case). -/
def parseElems : Nat → List Char → Option (List Json × List Char)
  | 0, _ => none
  | fuel + 1, cs =>
      match parseValue fuel cs with
      | none => none
      | some (v, rest) =>
          match skipWs rest with
          | ',' :: rest2 => (parseElems fuel rest2).map (fun p => (v :: p.1, p.2))
          | ']' :: rest2 => some ([v], rest2)
          | _ => none
termination_by structural fuel _ => fuel

/-- Object members after the opening brace (nonempty case). -/
def parseMembers : Nat → List Char → Option (List (String × Json) × List Char)
  | 0, _ => none
  | fuel + 1, cs =>
      match skipWs cs with
      | '"' :: rest =>
          match parseStringRest rest with
          | none => none
          | some (key, rest2) =>
              match skipWs rest2 with
              | ':' :: rest3 =>
                  match parseValue fuel rest3 with
                  | none => none
                  | some (v, rest4) =>
                      match skipWs rest4 with
                      | [] => none
                      | ',' :: rest5 =>
                          (parseMembers fuel rest5).map (fun p => ((key, v) :: p.1, p.2))
                      | d :: rest5 =>
                          if d = rbrace then some ([(key, v)], rest5) else none
              | _ => none
      | _ => none
termination_by structural fuel _ => fuel

end

/-- Model of the platform `JSON.parse`: parse one value, require only
whitespace after it, and reject otherwise.  The fuel is the input
length plus one, which suffices because every nesting level consumes at
least one character. -/
def jsonParse (s : String) : Except String Json :=
  match parseValue (s.length + 1) s.data with
  | some (v, rest) =>
      if (skipWs rest).isEmpty then Except.ok v
      else Except.error "Unexpected non-whitespace character after JSON data"
  | none => Except.error "Unexpected end of JSON input"

/-- `authService.getAuthData` (authService.ts lines 43-48): read the
session id; read the user string; when the user string is truthy, parse
it with `JSON.parse`.  The source wraps nothing in try/catch here, so a
parse failure propagates to the caller — hence the `Except` result,
whose error case is the uncaught exception. -/
def getAuthData (st : Store) : Except String (Option String × Option Json) :=
  match st.user with
  | none => Except.ok (st.session_id, none)
  | some userStr =>
      if userStr = "" then Except.ok (st.session_id, none)
      else
        match jsonParse userStr with
        | Except.ok u => Except.ok (st.session_id, some u)
        | Except.error e => Except.error e

set_option maxRecDepth 8192 in
/-- The parser accepts what `setAuthData` stores: round-trip sanity
check of the embedding. -/
example :
    (jsonParse (jsonStringifyUser (mkLoginUser 1 "internal_user" "a@b.com"))).toOption.isSome
      = true := by rfl

/-- C10 (confirmed): there exists a stored string under the user key
that is not valid JSON — the lone opening brace — for which
`getAuthData` propagates the parse exception instead of returning a
null user. -/
theorem malformed_user_json_propagates :
    ∃ bad : String, (∃ e, jsonParse bad = Except.error e) ∧
      (∃ e, getAuthData (Store.mk (some "S1") (some bad) none) = Except.error e) := by
  refine ⟨"\x7b", ⟨"Unexpected end of JSON input", ?_⟩,
    ⟨"Unexpected end of JSON input", ?_⟩⟩ <;> rfl

end Medialab
